import Mathlib

/-!
# Verification of the OpenSim Moco direct-collocation transcription excerpt

Shallow embedding of the excerpted sources:

* `Moco/MocoCasADiSolver/CasOCTrapezoidal.h` — the `Trapezoidal` scheme's
  constructor (feature-validation and variable creation);
* `Moco/MocoCasADiSolver/CasOCProblem.cpp` — `Solver::solve()` (scheme
  dispatch);
* `Moco/MocoCost/MocoOrientationTrackingCost.h` — reference-source setters
  and the per-frame weight setter;
* `OpenSim/Simulation/SimulationUtilities.h` — the `simulate` driver.

Scheme-hook bodies (`createQuadratureCoefficientsImpl`,
`applyConstraintsImpl`) and `Transcription::createVariablesAndSetBounds`
live in files outside the excerpt; where a claim depends on them they are
modelled from the specification text, and each such definition says so in
its doc comment.

Numeric values carried by states, times and weights are modelled as `ℚ`.
C++ exceptions (`OpenSim::Exception` carrying a message string) are
modelled as `Except String`.
-/

namespace CasOC

/-- The continuous-time problem description, as consumed by the excerpted
code: dimensions, the constraint-derivative flag, and whether an integral
cost is present.  Mirrors the `CasOC::Problem` queries the excerpt uses
(`getEnforceConstraintDerivatives`, dimension getters). -/
structure Problem where
  numStates : Nat
  numControls : Nat
  numParameters : Nat
  numPathConstraints : Nat
  enforceConstraintDerivatives : Bool
  hasIntegralCost : Bool
  deriving Repr, DecidableEq

/-- Solver configuration used by the excerpt: the configured transcription
scheme name (`m_transcriptionScheme`) and the mesh-point count
(`getNumMeshPoints`). -/
structure Solver where
  numMeshPoints : Nat
  transcriptionScheme : String
  deriving Repr, DecidableEq

/-- State of a constructed `Transcription` base object: the solver
configuration, the problem, and the two point counts passed to the base
constructor.  `variablesCreated` records whether
`createVariablesAndSetBounds()` has run. -/
structure Transcription where
  solver : Solver
  problem : Problem
  numMeshPoints : Nat
  numGridPoints : Nat
  variablesCreated : Bool
  deriving Repr, DecidableEq

/-- Modelled from the spec: `createVariablesAndSetBounds()` (the body lives
in `CasOCTranscription.cpp`, outside the excerpt) "allocates the
decision-variable set described in §3 and assigns bounds from Problem".
Here it is the construction-time step that marks the variable set as
allocated; the variable count itself is `Transcription.numVariables`. -/
def createVariablesAndSetBounds (t : Transcription) : Transcription :=
  { t with variablesCreated := true }

/-- Modelled from the spec: the decision-variable count of §3, "for each
node `k`, a state vector `x_k` and a control vector `u_k`; plus a
problem-wide parameter vector `p`; plus, if the problem has an integral
cost, one scalar quadrature-accumulation variable", so
`N·(n_x+n_u) + n_p (+1)`. -/
def Transcription.numVariables (t : Transcription) : Nat :=
  t.numMeshPoints * (t.problem.numStates + t.problem.numControls)
    + t.problem.numParameters
    + (if t.problem.hasIntegralCost then 1 else 0)

/-- The message of the exception thrown by the `Trapezoidal` constructor
(CasOCTrapezoidal.h, lines 34–36). -/
def trapezoidalUnsupportedMsg : String :=
  "Enforcing kinematic constraint derivatives not supported with " ++
  "trapezoidal transcription."

/-- The `Trapezoidal` constructor (CasOCTrapezoidal.h, lines 30–38): the
`Transcription` base is initialized with `solver.getNumMeshPoints()` for
both the mesh-point and the grid-point count; then
`OPENSIM_THROW_IF(problem.getEnforceConstraintDerivatives(), ...)` fires
before `createVariablesAndSetBounds()` is called. -/
def Trapezoidal.construct (solver : Solver) (problem : Problem) :
    Except String Transcription :=
  let base : Transcription :=
    { solver := solver, problem := problem,
      numMeshPoints := solver.numMeshPoints,
      numGridPoints := solver.numMeshPoints,
      variablesCreated := false }
  if problem.enforceConstraintDerivatives then
    .error trapezoidalUnsupportedMsg
  else
    .ok (createVariablesAndSetBounds base)

/-- A solution value, per §3 of the design: time grid, trajectories,
parameters, objective, status.  Only its identity matters to the claims
about `Solver::solve`. -/
structure Solution where
  times : List ℚ
  states : List (List ℚ)
  controls : List (List ℚ)
  parameters : List ℚ
  objective : ℚ
  status : String
  deriving Repr, DecidableEq

/-- The message of `OPENSIM_THROW(Exception, format("Unknown transcription
scheme '%s'.", m_transcriptionScheme))` in CasOCProblem.cpp, lines 34–35:
`format` substitutes the scheme string for `%s`. -/
def unknownSchemeMsg (scheme : String) : String :=
  "Unknown transcription scheme '" ++ scheme ++ "'."

/-- `Solver::solve()` (CasOCProblem.cpp, lines 29–38).  If the configured
scheme is `"trapezoidal"`, a `Trapezoidal` transcription is constructed
and its `solve()` result is returned; otherwise an exception naming the
scheme is thrown.  `Transcription::solve()` itself lives outside the
excerpt, so it is passed in as an abstract function `solveNLP` from the
constructed transcription to a `Solution`. -/
def Solver.solve (s : Solver) (problem : Problem)
    (solveNLP : Transcription → Solution) : Except String Solution :=
  if s.transcriptionScheme = "trapezoidal" then
    match Trapezoidal.construct s problem with
    | .ok transcription => .ok (solveNLP transcription)
    | .error e => .error e
  else
    .error (unknownSchemeMsg s.transcriptionScheme)

/-- Modelled from the spec: the trapezoidal quadrature weight at node `k`
(`createQuadratureCoefficientsImpl`, whose body lives in
CasOCTrapezoidal.cpp, outside the excerpt).  §4.4: "for interval widths
`h_k = t_{k+1} - t_k`, `w_0 = h_0/2`, `w_{N-1} = h_{N-2}/2`, and for
interior `k`, `w_k = (h_{k-1}+h_k)/2`".  `N` is the mesh-point count and
`t` the mesh nodes. -/
def quadratureWeight (N : Nat) (t : Nat → ℚ) (k : Nat) : ℚ :=
  if k = 0 then (t 1 - t 0) / 2
  else if k = N - 1 then (t (N - 1) - t (N - 2)) / 2
  else ((t k - t (k - 1)) + (t (k + 1) - t k)) / 2

/-- Modelled from the spec: the full coefficient vector returned by
`createQuadratureCoefficientsImpl`, one weight per mesh node. -/
def createQuadratureCoefficients (N : Nat) (t : Nat → ℚ) : List ℚ :=
  (List.range N).map (quadratureWeight N t)

/-- One emitted constraint block: a residual vector together with its
lower and upper bounds (an equality constraint has `lower = upper = 0` in
every component). -/
structure ConstraintBlock where
  residual : List ℚ
  lower : List ℚ
  upper : List ℚ
  deriving Repr, DecidableEq

/-- Whether a block is an exact vector equality pinned to zero. -/
def ConstraintBlock.isZeroEquality (b : ConstraintBlock) : Prop :=
  b.lower = List.replicate b.residual.length 0 ∧
  b.upper = List.replicate b.residual.length 0

/-- Modelled from the spec: the defect constraints emitted by
`applyConstraintsImpl` (body in CasOCTrapezoidal.cpp, outside the
excerpt).  §4.4: "one vector equation per interval `k = 0..N-2`:
`x_{k+1} − x_k − (h_k/2)·(ẋ_k + ẋ_{k+1}) = 0`, each component constrained
to equal zero exactly".  `t k` is the mesh node, `x k i` / `f k i` the
`i`-th state / state-derivative component at node `k`. -/
def trapezoidalDefects (N nx : Nat) (t : Nat → ℚ) (x f : Nat → Nat → ℚ) :
    List ConstraintBlock :=
  (List.range (N - 1)).map (fun k =>
    { residual := (List.range nx).map (fun i =>
        x (k + 1) i - x k i - (t (k + 1) - t k) / 2 * (f k i + f (k + 1) i)),
      lower := List.replicate nx 0,
      upper := List.replicate nx 0 })

/-- Modelled from the spec: the path-constraint blocks.  §4.4: trapezoidal
"enforces path constraints ... at every mesh node; no node is exempt", so
one block of `n_g` path-constraint outputs is appended per node.  Only the
block sizes matter to the claims, so the block is recorded as its size. -/
def pathConstraintBlockSizes (N ng : Nat) : List Nat :=
  List.replicate N ng

/-- Total number of scalar defect equations: the summed dimensions of the
emitted defect blocks. -/
def totalDefectEquations (N nx : Nat) (t : Nat → ℚ) (x f : Nat → Nat → ℚ) :
    Nat :=
  ((trapezoidalDefects N nx t x f).map (fun b => b.residual.length)).sum

end CasOC

namespace OpenSim

/-- A time-series table, modelled as its list of rows (a time stamp and a
row of values).  A default-constructed `TimeSeriesTable()` is the empty
list. -/
abbrev TimeSeriesTable (α : Type) : Type := List (ℚ × List α)

/-- An orientation, standing in for `SimTK::Rotation`; its internal
structure is irrelevant to the claims. -/
structure Rotation where
  angle : ℚ
  axis : ℚ × ℚ × ℚ
  deriving Repr, DecidableEq

/-- One entry of a `MocoWeightSet`: a name and a weight. -/
structure MocoWeight where
  name : String
  weight : ℚ
  deriving Repr, DecidableEq

/-- A `MocoWeightSet`, modelled as the ordered list of its entries
(`OpenSim::Set` keeps insertion order; `get(name)` returns the first
entry with that name). -/
abbrev MocoWeightSet : Type := List MocoWeight

/-- `MocoWeightSet::contains(name)`. -/
def MocoWeightSet.containsName (s : MocoWeightSet) (n : String) : Bool :=
  s.any (fun w => w.name = n)

/-- `upd(set).get(name).setWeight(v)`: replace the weight of the first
entry named `n` (the entry `get` returns) by `v`. -/
def MocoWeightSet.setWeightOfFirst : MocoWeightSet → String → ℚ → MocoWeightSet
  | [], _, _ => []
  | w :: ws, n, v =>
      if w.name = n then { w with weight := v } :: ws
      else w :: MocoWeightSet.setWeightOfFirst ws n v

/-- The fields of `MocoOrientationTrackingCost` the excerpted setters
touch: the `reference_file` property, the rotation-weight set, and the two
member tables. -/
structure MocoOrientationTrackingCost where
  reference_file : String
  frame_paths : List String
  rotation_weights : MocoWeightSet
  m_states_table : TimeSeriesTable ℚ
  m_rotation_table : TimeSeriesTable Rotation

namespace MocoOrientationTrackingCost

/-- `setStatesReferenceFile` (MocoOrientationTrackingCost.h, lines 77–81):
clears both member tables, then sets the `reference_file` property. -/
def setStatesReferenceFile (c : MocoOrientationTrackingCost)
    (filepath : String) : MocoOrientationTrackingCost :=
  { c with m_states_table := [], m_rotation_table := [],
           reference_file := filepath }

/-- `setStatesReference` (lines 85–89): clears the `reference_file`
property and the rotation table, then installs the states table. -/
def setStatesReference (c : MocoOrientationTrackingCost)
    (ref : TimeSeriesTable ℚ) : MocoOrientationTrackingCost :=
  { c with reference_file := "", m_rotation_table := [],
           m_states_table := ref }

/-- `setRotationReference` (lines 97–101): clears the states table and the
`reference_file` property, then installs the rotation table. -/
def setRotationReference (c : MocoOrientationTrackingCost)
    (ref : TimeSeriesTable Rotation) : MocoOrientationTrackingCost :=
  { c with m_states_table := [], reference_file := "",
           m_rotation_table := ref }

/-- `setWeight` (lines 117–123): if the rotation-weight set already
contains the frame name, the existing entry's weight is replaced;
otherwise a new `(frameName, weight)` entry is appended
(`cloneAndAppend`).  The function is total: no branch throws. -/
def setWeight (c : MocoOrientationTrackingCost) (frameName : String)
    (weight : ℚ) : MocoOrientationTrackingCost :=
  if c.rotation_weights.containsName frameName then
    { c with rotation_weights :=
        c.rotation_weights.setWeightOfFirst frameName weight }
  else
    { c with rotation_weights :=
        c.rotation_weights ++ [{ name := frameName, weight := weight }] }

/-- How many of the three reference sources are non-empty. -/
def numNonEmptySources (c : MocoOrientationTrackingCost) : Nat :=
  (if c.reference_file ≠ "" then 1 else 0)
    + (if c.m_states_table ≠ [] then 1 else 0)
    + (if c.m_rotation_table ≠ [] then 1 else 0)

end MocoOrientationTrackingCost

/-- A `SimTK::State`, reduced to the data `simulate` reads and writes: its
time stamp and its continuous-variable vector. -/
structure SimState where
  time : ℚ
  y : List ℚ
  deriving Repr, DecidableEq

/-- `SimTK::State::setTime`. -/
def SimState.setTime (s : SimState) (t : ℚ) : SimState := { s with time := t }

/-- `simulate` (SimulationUtilities.h, lines 40–105), for a model with the
visualizer disabled (so `simulateOnce` stays `true` and the do-while body
runs exactly once).  The returned state begins as a copy of
`initialState`; if `finalTime <= initialState.getTime()` the simulation is
aborted and that copy is returned with zero integrator runs.  Otherwise
the state is reset to the initial state, its time set to the initial time,
and `manager.integrate(finalTime)` — passed in as the abstract function
`integrate`, since `Manager` lives outside the excerpt — produces the
returned state; the second component counts how many times the integrator
ran.  The `initialState` argument is taken by value and never written. -/
def simulate (integrate : SimState → ℚ → SimState)
    (initialState : SimState) (finalTime : ℚ) : SimState × Nat :=
  let state := initialState
  let initialTime := initialState.time
  if finalTime ≤ initialTime then
    (state, 0)
  else
    let state := initialState
    let state := state.setTime initialTime
    (integrate state finalTime, 1)

end OpenSim

/-! ## Generic helper lemmas -/

/-- Summing a function mapped over `List.range` agrees with the
corresponding `Finset.range` sum. -/
theorem range_map_sum_eq (f : ℕ → ℚ) :
    ∀ n : ℕ, ((List.range n).map f).sum = ∑ i ∈ Finset.range n, f i
  | 0 => rfl
  | n + 1 => by
      rw [List.sum_range_succ, Finset.sum_range_succ, range_map_sum_eq f n]

/-! ## C1, C2, C6, C7: Solver dispatch and Trapezoidal construction -/

/-- Claim C1: For every Problem with `enforceConstraintDerivatives = true` and
every mesh-point count `N ≥ 2`, constructing the Trapezoidal transcription
fails with the unsupported-feature exception before any decision variable
is allocated (no constructed `Transcription` — in particular none with
`variablesCreated` set — is ever produced), so no NLP is built. -/
theorem trapezoidal_rejects_constraint_derivatives
    (s : CasOC.Solver) (p : CasOC.Problem)
    (_hN : 2 ≤ s.numMeshPoints)
    (hd : p.enforceConstraintDerivatives = true) :
    CasOC.Trapezoidal.construct s p = .error CasOC.trapezoidalUnsupportedMsg ∧
    ∀ tr : CasOC.Transcription, CasOC.Trapezoidal.construct s p ≠ .ok tr := by
  refine ⟨?_, ?_⟩
  · simp [CasOC.Trapezoidal.construct, hd]
  · intro tr h
    simp [CasOC.Trapezoidal.construct, hd] at h

/-- Witness for C1 at a concrete solver (`N = 2`) and problem. -/
theorem trapezoidal_rejects_constraint_derivatives_witness :
    CasOC.Trapezoidal.construct ⟨2, "trapezoidal"⟩ ⟨1, 1, 0, 0, true, false⟩
      = .error CasOC.trapezoidalUnsupportedMsg :=
  (trapezoidal_rejects_constraint_derivatives ⟨2, "trapezoidal"⟩
    ⟨1, 1, 0, 0, true, false⟩ (by decide) rfl).1

/-- Claim C2: For every configured transcription-scheme name other than
`"trapezoidal"`, `Solver::solve()` fails immediately with the exception
whose message names the offending string; no `Solution` is returned, and
the result does not depend on the NLP-solving function, so no
`Transcription` is constructed and the external solver is never
invoked. -/
theorem solver_rejects_unknown_scheme
    (s : CasOC.Solver) (p : CasOC.Problem)
    (solveNLP : CasOC.Transcription → CasOC.Solution)
    (h : s.transcriptionScheme ≠ "trapezoidal") :
    s.solve p solveNLP
      = .error ("Unknown transcription scheme '"
          ++ s.transcriptionScheme ++ "'.") ∧
    (∀ sol : CasOC.Solution, s.solve p solveNLP ≠ .ok sol) ∧
    (∀ g : CasOC.Transcription → CasOC.Solution,
        s.solve p g = s.solve p solveNLP) := by
  refine ⟨?_, ?_, ?_⟩
  · simp [CasOC.Solver.solve, CasOC.unknownSchemeMsg, h]
  · intro sol hok
    simp [CasOC.Solver.solve, h] at hok
  · intro g
    simp [CasOC.Solver.solve, h]

/-- Witness for C2 at the concrete scheme name `"hermite-simpson"`. -/
theorem solver_rejects_unknown_scheme_witness :
    CasOC.Solver.solve ⟨10, "hermite-simpson"⟩ ⟨1, 1, 0, 0, false, false⟩
        (fun _ => ⟨[], [], [], [], 0, "Converged"⟩)
      = .error "Unknown transcription scheme 'hermite-simpson'." :=
  (solver_rejects_unknown_scheme ⟨10, "hermite-simpson"⟩
    ⟨1, 1, 0, 0, false, false⟩ _ (by decide)).1

/-- Claim C6: When the Trapezoidal transcription is successfully constructed
by the Solver, the mesh-point and grid-point counts stored in the
`Transcription` base are equal, and both equal the solver's configured
mesh-point count. -/
theorem trapezoidal_mesh_points_equal_grid_points
    (s : CasOC.Solver) (p : CasOC.Problem) (tr : CasOC.Transcription)
    (hok : CasOC.Trapezoidal.construct s p = .ok tr) :
    tr.numMeshPoints = s.numMeshPoints ∧
    tr.numGridPoints = s.numMeshPoints := by
  cases hd : p.enforceConstraintDerivatives with
  | true => simp [CasOC.Trapezoidal.construct, hd] at hok
  | false =>
      simp [CasOC.Trapezoidal.construct, hd,
        CasOC.createVariablesAndSetBounds] at hok
      exact ⟨by rw [← hok], by rw [← hok]⟩

/-- Witness for C6 at a concrete solver with `N = 7`. -/
theorem trapezoidal_mesh_points_equal_grid_points_witness :
    (⟨⟨7, "trapezoidal"⟩, ⟨2, 1, 0, 0, false, true⟩, 7, 7,
        true⟩ : CasOC.Transcription).numMeshPoints = 7 ∧
    (⟨⟨7, "trapezoidal"⟩, ⟨2, 1, 0, 0, false, true⟩, 7, 7,
        true⟩ : CasOC.Transcription).numGridPoints = 7 :=
  trapezoidal_mesh_points_equal_grid_points ⟨7, "trapezoidal"⟩
    ⟨2, 1, 0, 0, false, true⟩ _ rfl

/-- Claim C7: For the recognized scheme name, when construction of the
Trapezoidal transcription succeeds, `Solver::solve()` returns exactly the
`Solution` produced by the transcription's `solve()` — wrapped in `.ok`
with no field modified. -/
theorem solver_returns_transcription_solution_unchanged
    (s : CasOC.Solver) (p : CasOC.Problem) (tr : CasOC.Transcription)
    (solveNLP : CasOC.Transcription → CasOC.Solution)
    (hscheme : s.transcriptionScheme = "trapezoidal")
    (hok : CasOC.Trapezoidal.construct s p = .ok tr) :
    s.solve p solveNLP = .ok (solveNLP tr) := by
  simp [CasOC.Solver.solve, hscheme, hok]

/-- Witness for C7: a concrete problem whose transcription's solution is
passed through unchanged. -/
theorem solver_returns_transcription_solution_unchanged_witness :
    CasOC.Solver.solve ⟨3, "trapezoidal"⟩ ⟨1, 1, 0, 0, false, false⟩
        (fun tr => ⟨[0, 1], [], [], [], tr.numMeshPoints, "Converged"⟩)
      = .ok ⟨[0, 1], [], [], [], 3, "Converged"⟩ :=
  solver_returns_transcription_solution_unchanged
    ⟨3, "trapezoidal"⟩ ⟨1, 1, 0, 0, false, false⟩
    ⟨⟨3, "trapezoidal"⟩, ⟨1, 1, 0, 0, false, false⟩, 3, 3, true⟩
    (fun tr => ⟨[0, 1], [], [], [], tr.numMeshPoints, "Converged"⟩)
    rfl rfl

/-! ## C3, C4: defect constraints and quadrature coefficients -/

/-- The trapezoidal quadrature weights telescope: for any mesh with
`N ≥ 2` nodes their sum is `t (N-1) - t 0`. -/
theorem createQuadratureCoefficients_sum (N : ℕ) (t : ℕ → ℚ) (hN : 2 ≤ N) :
    (CasOC.createQuadratureCoefficients N t).sum = t (N - 1) - t 0 := by
  obtain ⟨M, rfl⟩ : ∃ M, N = M + 2 := ⟨N - 2, by omega⟩
  unfold CasOC.createQuadratureCoefficients
  rw [range_map_sum_eq, Finset.sum_range_succ, Finset.sum_range_succ']
  have h0 : CasOC.quadratureWeight (M + 2) t 0 = (t 1 - t 0) / 2 := by
    simp [CasOC.quadratureWeight]
  have hlast : CasOC.quadratureWeight (M + 2) t (M + 1)
      = (t (M + 1) - t M) / 2 := by
    simp [CasOC.quadratureWeight]
  have hin : ∀ i ∈ Finset.range M,
      CasOC.quadratureWeight (M + 2) t (i + 1)
        = ((t (i + 2) - t (i + 1)) + (t (i + 1) - t i)) / 2 := by
    intro i hi
    rw [Finset.mem_range] at hi
    have h1 : i + 1 ≠ 0 := by omega
    have h2 : ¬(i + 1 = M + 2 - 1) := by omega
    simp only [CasOC.quadratureWeight, h1, h2, if_false, Nat.add_sub_cancel]
    ring
  rw [Finset.sum_congr rfl hin, ← Finset.sum_div, Finset.sum_add_distrib,
    Finset.sum_range_sub (fun i => t (i + 1)), Finset.sum_range_sub t,
    h0, hlast]
  show (t (M + 1) - t 1 + (t M - t 0)) / 2 + (t 1 - t 0) / 2
      + (t (M + 1) - t M) / 2 = t (M + 1) - t 0
  ring

/-- Claim C4: The trapezoidal quadrature coefficients satisfy
`w_0 = h_0/2`, `w_{N-1} = h_{N-2}/2`, `w_k = (h_{k-1}+h_k)/2` for interior
`k`; their sum is `t_{N-1} − t_0`; and for a uniform mesh of width `h`
they reduce to `w_0 = w_{N-1} = h/2` and `w_k = h`. -/
theorem trapezoidal_quadrature_coefficients
    (N : ℕ) (t : ℕ → ℚ) (hN : 2 ≤ N)
    (_hmono : ∀ k, k + 1 ≤ N - 1 → t k < t (k + 1)) :
    CasOC.quadratureWeight N t 0 = (t 1 - t 0) / 2 ∧
    CasOC.quadratureWeight N t (N - 1) = (t (N - 1) - t (N - 2)) / 2 ∧
    (∀ k, 0 < k → k < N - 1 →
      CasOC.quadratureWeight N t k
        = ((t k - t (k - 1)) + (t (k + 1) - t k)) / 2) ∧
    (CasOC.createQuadratureCoefficients N t).sum = t (N - 1) - t 0 ∧
    (∀ t0 h : ℚ, (∀ k, k ≤ N - 1 → t k = t0 + (k : ℚ) * h) →
      CasOC.quadratureWeight N t 0 = h / 2 ∧
      CasOC.quadratureWeight N t (N - 1) = h / 2 ∧
      (∀ k, 0 < k → k < N - 1 → CasOC.quadratureWeight N t k = h)) := by
  have hN1 : N - 1 ≠ 0 := by omega
  refine ⟨by simp [CasOC.quadratureWeight], ?_, ?_, ?_, ?_⟩
  · simp [CasOC.quadratureWeight, hN1]
  · intro k hk0 hk1
    have h1 : k ≠ 0 := by omega
    have h2 : ¬(k = N - 1) := by omega
    simp [CasOC.quadratureWeight, h1, h2]
  · exact createQuadratureCoefficients_sum N t hN
  · intro t0 h huni
    refine ⟨?_, ?_, ?_⟩
    · have e1 := huni 1 (by omega)
      have e0 := huni 0 (by omega)
      simp only [CasOC.quadratureWeight, if_pos rfl]
      rw [e1, e0]
      push_cast
      ring
    · have e1 := huni (N - 1) (by omega)
      have e0 := huni (N - 2) (by omega)
      simp only [CasOC.quadratureWeight, hN1, if_false, if_pos rfl]
      rw [e1, e0, Nat.cast_sub (by omega : 1 ≤ N),
        Nat.cast_sub (by omega : 2 ≤ N)]
      push_cast
      ring
    · intro k hk0 hk1
      have h1 : k ≠ 0 := by omega
      have h2 : ¬(k = N - 1) := by omega
      have ek := huni k (by omega)
      have ekm := huni (k - 1) (by omega)
      have ekp := huni (k + 1) (by omega)
      simp only [CasOC.quadratureWeight, h1, h2, if_false]
      rw [ek, ekm, ekp, Nat.cast_sub (by omega : 1 ≤ k)]
      push_cast
      ring

/-- Witness for C4: the uniform mesh `0, 1, 2, 3` (`N = 4`, `h = 1`); the
weights sum to `t 3 - t 0 = 3`. -/
theorem trapezoidal_quadrature_coefficients_witness :
    (CasOC.createQuadratureCoefficients 4 (fun k => (k : ℚ))).sum
      = ((3 : ℕ) : ℚ) - ((0 : ℕ) : ℚ) := by
  have h := (trapezoidal_quadrature_coefficients 4 (fun k => (k : ℚ))
    (by omega) (by intro k _; push_cast; linarith)).2.2.2.1
  simpa using h

/-- Claim C3: For every mesh of `N ≥ 2` strictly increasing nodes, the
trapezoidal scheme emits exactly one vector defect-constraint block per
mesh interval (`N - 1` blocks), each of dimension `n_x`, each an exact
zero-equality constraint, and component `i` of block `k` is
`x_{k+1,i} − x_{k,i} − (h_k/2)·(ẋ_{k,i} + ẋ_{k+1,i})`. -/
theorem trapezoidal_defect_constraints
    (N nx : ℕ) (t : ℕ → ℚ) (x f : ℕ → ℕ → ℚ)
    (_hN : 2 ≤ N) (_hmono : ∀ k, k + 1 ≤ N - 1 → t k < t (k + 1)) :
    (CasOC.trapezoidalDefects N nx t x f).length = N - 1 ∧
    (∀ b ∈ CasOC.trapezoidalDefects N nx t x f,
      b.residual.length = nx ∧ b.isZeroEquality) ∧
    (∀ k, k < N - 1 → ∀ i, i < nx →
      (((CasOC.trapezoidalDefects N nx t x f).getD k
          ⟨[], [], []⟩).residual.getD i 0)
        = x (k + 1) i - x k i
            - (t (k + 1) - t k) / 2 * (f k i + f (k + 1) i)) := by
  refine ⟨by simp [CasOC.trapezoidalDefects], ?_, ?_⟩
  · intro b hb
    simp only [CasOC.trapezoidalDefects, List.mem_map, List.mem_range] at hb
    obtain ⟨k, hk, rfl⟩ := hb
    refine ⟨by simp, ?_⟩
    constructor <;> simp [CasOC.ConstraintBlock.isZeroEquality]
  · intro k hk i hi
    simp [CasOC.trapezoidalDefects, List.getD_eq_getElem?_getD,
      List.getElem?_map, List.getElem?_range, hk, hi]

/-- Witness for C3: `N = 3`, `n_x = 1`, the mesh `0, 1, 2`; two defect
blocks are emitted. -/
theorem trapezoidal_defect_constraints_witness :
    (CasOC.trapezoidalDefects 3 1 (fun k => (k : ℚ))
        (fun k i => (k : ℚ) + i) (fun _ _ => 1)).length = 3 - 1 :=
  (trapezoidal_defect_constraints 3 1 (fun k => (k : ℚ))
    (fun k i => (k : ℚ) + i) (fun _ _ => 1)
    (by omega) (by intro k _; push_cast; linarith)).1

/-! ## C5: NLP dimensions -/

/-- Sum of a constant function mapped over any list. -/
theorem sum_map_const {α : Type} (l : List α) (c : ℕ) :
    (l.map fun _ => c).sum = l.length * c := by
  induction l with
  | nil => simp
  | cons a l ih => simp [ih]; ring

/-- The emitted defect blocks carry `(N-1)·n_x` scalar equations in
total. -/
theorem totalDefectEquations_eq (N nx : ℕ) (t : ℕ → ℚ)
    (x f : ℕ → ℕ → ℚ) :
    CasOC.totalDefectEquations N nx t x f = (N - 1) * nx := by
  have h : ∀ b ∈ CasOC.trapezoidalDefects N nx t x f,
      b.residual.length = nx := by
    intro b hb
    simp only [CasOC.trapezoidalDefects, List.mem_map, List.mem_range] at hb
    obtain ⟨k, _, rfl⟩ := hb
    simp
  unfold CasOC.totalDefectEquations
  have hmap : (CasOC.trapezoidalDefects N nx t x f).map
        (fun b => b.residual.length)
      = (CasOC.trapezoidalDefects N nx t x f).map fun _ => nx :=
    List.map_congr_left h
  rw [hmap, sum_map_const]
  simp [CasOC.trapezoidalDefects]

/-- Claim C5: For every successfully constructed trapezoidal transcription,
the NLP has exactly `N·(n_x+n_u)+n_p` decision variables plus one more iff
the problem has an integral cost; exactly `(N−1)·n_x` defect-constraint
equations; and one path-constraint block of size `n_g` per node. -/
theorem trapezoidal_nlp_dimensions
    (s : CasOC.Solver) (p : CasOC.Problem) (tr : CasOC.Transcription)
    (hok : CasOC.Trapezoidal.construct s p = .ok tr)
    (t : ℕ → ℚ) (x f : ℕ → ℕ → ℚ) :
    tr.numVariables
      = tr.numMeshPoints * (p.numStates + p.numControls) + p.numParameters
          + (if p.hasIntegralCost then 1 else 0) ∧
    CasOC.totalDefectEquations tr.numMeshPoints p.numStates t x f
      = (tr.numMeshPoints - 1) * p.numStates ∧
    (CasOC.pathConstraintBlockSizes tr.numMeshPoints
        p.numPathConstraints).length = tr.numMeshPoints ∧
    (∀ g ∈ CasOC.pathConstraintBlockSizes tr.numMeshPoints
        p.numPathConstraints, g = p.numPathConstraints) := by
  have hp : tr.problem = p := by
    cases hd : p.enforceConstraintDerivatives with
    | true => simp [CasOC.Trapezoidal.construct, hd] at hok
    | false =>
        simp [CasOC.Trapezoidal.construct, hd,
          CasOC.createVariablesAndSetBounds] at hok
        rw [← hok]
  refine ⟨?_, totalDefectEquations_eq _ _ _ _ _, ?_, ?_⟩
  · simp [CasOC.Transcription.numVariables, hp]
  · simp [CasOC.pathConstraintBlockSizes]
  · intro g hg
    exact List.eq_of_mem_replicate hg

/-- Witness for C5: `N = 4`, `n_x = 2`, `n_u = 1`, `n_p = 1`, integral
cost present, so `4·3 + 1 + 1 = 14` variables. -/
theorem trapezoidal_nlp_dimensions_witness :
    (⟨⟨4, "trapezoidal"⟩, ⟨2, 1, 1, 3, false, true⟩, 4, 4,
        true⟩ : CasOC.Transcription).numVariables = 14 := by
  have h := (trapezoidal_nlp_dimensions ⟨4, "trapezoidal"⟩
    ⟨2, 1, 1, 3, false, true⟩
    ⟨⟨4, "trapezoidal"⟩, ⟨2, 1, 1, 3, false, true⟩, 4, 4, true⟩
    rfl (fun k => (k : ℚ)) (fun _ _ => 0) (fun _ _ => 0)).1
  simpa using h

/-! ## C8, C9: MocoOrientationTrackingCost setters -/

/-- Claim C8: After any one of `setStatesReferenceFile`,
`setStatesReference`, or `setRotationReference`, at most one of the three
reference sources (`reference_file`, the states table, the rotation table)
is non-empty: each setter clears the other two before installing its
own. -/
theorem tracking_reference_sources_exclusive
    (c : OpenSim.MocoOrientationTrackingCost) (fp : String)
    (sref : OpenSim.TimeSeriesTable ℚ)
    (rref : OpenSim.TimeSeriesTable OpenSim.Rotation) :
    (c.setStatesReferenceFile fp).numNonEmptySources ≤ 1 ∧
    (c.setStatesReference sref).numNonEmptySources ≤ 1 ∧
    (c.setRotationReference rref).numNonEmptySources ≤ 1 := by
  refine ⟨?_, ?_, ?_⟩ <;>
    · simp only [OpenSim.MocoOrientationTrackingCost.numNonEmptySources,
        OpenSim.MocoOrientationTrackingCost.setStatesReferenceFile,
        OpenSim.MocoOrientationTrackingCost.setStatesReference,
        OpenSim.MocoOrientationTrackingCost.setRotationReference,
        ne_eq, not_true_eq_false, if_false]
      split <;> simp

/-- First entry with the given name after `setWeightOfFirst`. -/
theorem find?_setWeightOfFirst (l : OpenSim.MocoWeightSet) (n : String)
    (v : ℚ) (h : l.containsName n = true) :
    (l.setWeightOfFirst n v).find? (fun e => e.name = n)
      = some ⟨n, v⟩ := by
  induction l with
  | nil => simp [OpenSim.MocoWeightSet.containsName] at h
  | cons w ws ih =>
      simp only [OpenSim.MocoWeightSet.setWeightOfFirst]
      by_cases hw : w.name = n
      · simp [List.find?, hw]
      · rw [if_neg hw]
        have h' : OpenSim.MocoWeightSet.containsName ws n = true := by
          simp only [OpenSim.MocoWeightSet.containsName, List.any_cons,
            Bool.or_eq_true, decide_eq_true_eq] at h
          rcases h with h | h
          · exact absurd h hw
          · simpa [OpenSim.MocoWeightSet.containsName] using h
        simp [List.find?, hw, ih h']

/-- `setWeightOfFirst` preserves the number of entries. -/
theorem length_setWeightOfFirst (l : OpenSim.MocoWeightSet) (n : String)
    (v : ℚ) : (l.setWeightOfFirst n v).length = l.length := by
  induction l with
  | nil => rfl
  | cons w ws ih =>
      simp only [OpenSim.MocoWeightSet.setWeightOfFirst]
      split <;> simp [ih]

/-- Appending a fresh entry makes it the first one found by name. -/
theorem find?_append_of_not_contains (l : OpenSim.MocoWeightSet)
    (n : String) (v : ℚ) (h : l.containsName n = false) :
    (l ++ [(⟨n, v⟩ : OpenSim.MocoWeight)]).find? (fun e => e.name = n)
      = some ⟨n, v⟩ := by
  induction l with
  | nil => simp [List.find?]
  | cons w ws ih =>
      simp only [OpenSim.MocoWeightSet.containsName, List.any_cons,
        Bool.or_eq_false_iff, decide_eq_false_iff_not] at h
      obtain ⟨hw, hws⟩ := h
      simp only [List.cons_append]
      simp [List.find?, hw,
        ih (by simpa [OpenSim.MocoWeightSet.containsName] using hws)]

/-- Claim C9: For every frame name and weight, `setWeight` never throws (it
is a total function): if the rotation-weight set already contains the
frame name, the existing entry's weight is replaced (same length),
otherwise a new entry is appended (length grows by one); afterwards the
set always contains the frame name with the given weight. -/
theorem setWeight_replaces_or_appends
    (c : OpenSim.MocoOrientationTrackingCost) (frameName : String)
    (v : ℚ) :
    ((c.setWeight frameName v).rotation_weights.find?
        (fun e => e.name = frameName)) = some ⟨frameName, v⟩ ∧
    (c.setWeight frameName v).rotation_weights.length
      = (if c.rotation_weights.containsName frameName
         then c.rotation_weights.length
         else c.rotation_weights.length + 1) := by
  unfold OpenSim.MocoOrientationTrackingCost.setWeight
  by_cases h : c.rotation_weights.containsName frameName = true
  · simp only [h, if_true]
    exact ⟨find?_setWeightOfFirst _ _ _ h,
      length_setWeightOfFirst _ _ _⟩
  · have h' : c.rotation_weights.containsName frameName = false :=
      Bool.not_eq_true _ ▸ Bool.eq_false_iff.mpr (fun hx => h hx)
    simp only [h', Bool.false_eq_true, if_false]
    exact ⟨find?_append_of_not_contains _ _ _ h', by simp⟩

/-! ## C10: the simulate driver -/

/-- Claim C10: If the requested final time is not in the future of the
initial state's time, `simulate` performs no integration and returns a
state equal to the provided initial state (which, being passed by value,
is never mutated). -/
theorem simulate_aborts_when_final_time_not_future
    (integrate : OpenSim.SimState → ℚ → OpenSim.SimState)
    (initialState : OpenSim.SimState) (finalTime : ℚ)
    (h : finalTime ≤ initialState.time) :
    OpenSim.simulate integrate initialState finalTime
      = (initialState, 0) := by
  simp [OpenSim.simulate, h]

/-- Witness for C10: initial time `1`, final time `0`. -/
theorem simulate_aborts_when_final_time_not_future_witness :
    OpenSim.simulate (fun s _ => s) ⟨1, [2, 3]⟩ 0 = (⟨1, [2, 3]⟩, 0) :=
  simulate_aborts_when_final_time_not_future (fun s _ => s) ⟨1, [2, 3]⟩ 0
    (by norm_num)
